import Mathlib

/-!
Shallow embedding of `docs/examples/spiking-mnist.ipynb` (nengo_dl).

The notebook is straight-line glue code: it loads MNIST, declares a
convolutional network through `nengo_dl.Layer`, constructs a
`nengo_dl.Simulator`, prepares time-axis data, evaluates, branches on
`do_training` (train/save versus download/load pretrained weights),
evaluates again, predicts and plots.  The development below embeds

  * the network topology and simulator configuration declared in the
    network-construction cell;
  * the notebook's statement sequence as a small statement language
    (calls, one if/else, fixed-count loops, and a try/except form that
    the notebook never uses), with a trace semantics and an
    exception-propagation semantics;
  * the time-axis data preparation (`[:, None, :]` and `np.tile`);
  * the custom `classification_accuracy` metric
    (`tf.metrics.sparse_categorical_accuracy` on the `[:, -1]` slices).
-/

namespace SpikingMnist

/-! ### Network topology (notebook cell `with nengo.Network(seed=0) as net:`) -/

/-- One layer of the notebook's network: a Keras `Conv2D` wrapped in a
TensorNode (with its `shape_in`), the LIF neuron nonlinearity
(`nengo.LIF(amplitude=0.01)`), or a Keras `Dense` readout. -/
inductive LayerSpec
  | conv2d (filters kernelSize strides : Nat) (shapeIn : Nat × Nat × Nat)
  | lifNeuron (amplitude : Rat)
  | dense (units : Nat)
deriving DecidableEq

/-- A probe on the network output: `nengo.Probe(out, synapse=..., label=...)`. -/
structure ProbeDef where
  target : String
  synapse : Option Rat
  label : String
deriving DecidableEq

/-- The network as declared: seed, input node size, layer sequence, probes. -/
structure NetworkDef where
  seed : Nat
  inputSize : Nat
  layers : List LayerSpec
  probes : List ProbeDef
deriving DecidableEq

/-- `neuron_type = nengo.LIF(amplitude=0.01)`. -/
def neuron_type : LayerSpec := .lifNeuron (mkRat 1 100)

/-- The network built in the notebook: three convolution layers, each
followed by the LIF nonlinearity, then a 10-unit dense readout, with two
probes on the output (`out_p` unfiltered, `out_p_filt` with synapse 0.1). -/
def net : NetworkDef :=
  { seed := 0
    inputSize := 28 * 28
    layers :=
      [ .conv2d 32 3 1 (28, 28, 1)
      , neuron_type
      , .conv2d 64 3 2 (26, 26, 32)
      , neuron_type
      , .conv2d 128 3 2 (12, 12, 64)
      , neuron_type
      , .dense 10 ]
    probes :=
      [ { target := "out", synapse := none, label := "out_p" }
      , { target := "out", synapse := some (mkRat 1 10), label := "out_p_filt" } ] }

/-- `minibatch_size = 200`. -/
def minibatch_size : Nat := 200

/-- `sim = nengo_dl.Simulator(net, minibatch_size=minibatch_size)`. -/
structure SimulatorDef where
  network : NetworkDef
  minibatchSize : Nat
deriving DecidableEq

/-- The simulator object the notebook constructs. -/
def sim : SimulatorDef := { network := net, minibatchSize := minibatch_size }

/-- `n_steps = 30`. -/
def n_steps : Nat := 30

/-- `do_training = False`. -/
def do_training : Bool := false

/-! ### The notebook as a statement sequence -/

/-- Loss functions named in the notebook's `sim.compile` calls. -/
inductive LossFn
  | sparseCategoricalCrossentropy (fromLogits : Bool)
  | classificationAccuracy
deriving DecidableEq

/-- Optimizer configuration (`tf.optimizers.RMSprop(0.001)`). -/
inductive OptimizerChoice
  | rmsprop (learningRate : Rat)
deriving DecidableEq

/-- Arguments of one `sim.compile(...)` call: an optional optimizer and a
loss function keyed on an output probe. -/
structure CompileCfg where
  optimizer : Option OptimizerChoice
  lossProbe : String
  loss : LossFn
deriving DecidableEq

/-- The individual operations (library calls and effects) the notebook
performs.  `readEnvVar` and `readCliArg` are in the grammar so that their
absence from the notebook is a checkable fact; the notebook never uses
them. -/
inductive Call
  | loadMnistDataset
  | buildNetwork (n : NetworkDef)
  | makeSimulator (n : NetworkDef) (minibatch : Nat)
  | addTrainTimeAxis
  | tileTestData (steps : Nat)
  | compile (cfg : CompileCfg)
  | evaluate (inputs lossProbe targets : String)
  | fit (inputs lossProbe targets : String) (epochs : Nat)
  | save_params (path : String)
  | urlretrieve (url dest : String)
  | load_params (path : String)
  | predict (inputs : String)
  | plotOutput
  | closeSimulator
  | readEnvVar (name : String)
  | readCliArg (index : Nat)
deriving DecidableEq

/-- Statements: a single call, an if/else on a boolean, a fixed-count
loop, or a try/except block.  The notebook's branches and loop bodies are
straight-line call sequences, so bodies are call lists. -/
inductive Stmt
  | call (c : Call)
  | ifElse (cond : Bool) (thenBranch elseBranch : List Call)
  | forRange (count : Nat) (body : List Call)
  | tryExcept (body handler : List Call)
deriving DecidableEq

/-- The `do_training` branch: compile with RMSprop and sparse categorical
cross-entropy on `out_p`, fit for 10 epochs, save `./mnist_params`. -/
def trainBranch : List Call :=
  [ .compile
      { optimizer := some (.rmsprop (mkRat 1 1000))
        lossProbe := "out_p"
        loss := .sparseCategoricalCrossentropy true }
  , .fit "train_images" "out_p" "train_labels" 10
  , .save_params "./mnist_params" ]

/-- The Google Drive URL of the pretrained weights. -/
def pretrainedUrl : String :=
  "https://drive.google.com/uc?export=download&id=1l5aivQljFoXzPP5JVccdFXbOYRv3BCJR"

/-- The `else` branch: download the pretrained weights to
`mnist_params.npz` and load `./mnist_params`. -/
def loadBranch : List Call :=
  [ .urlretrieve pretrainedUrl "mnist_params.npz"
  , .load_params "./mnist_params" ]

/-- The compile configuration used for both evaluations: the custom
classification-accuracy loss keyed on the filtered probe `out_p_filt`. -/
def evalCompileCfg : CompileCfg :=
  { optimizer := none, lossProbe := "out_p_filt", loss := .classificationAccuracy }

/-- The notebook's cells in order, with the `do_training` flag as the
condition of its one if/else. -/
def notebookStmts (training : Bool) : List Stmt :=
  [ .call .loadMnistDataset
  , .forRange 3 [.plotOutput]
  , .call (.buildNetwork net)
  , .call (.makeSimulator net minibatch_size)
  , .call .addTrainTimeAxis
  , .call (.tileTestData n_steps)
  , .call (.compile evalCompileCfg)
  , .call (.evaluate "test_images" "out_p_filt" "test_labels")
  , .ifElse training trainBranch loadBranch
  , .call (.compile evalCompileCfg)
  , .call (.evaluate "test_images" "out_p_filt" "test_labels")
  , .call (.predict "test_images[:minibatch_size]")
  , .forRange 5 [.plotOutput]
  , .call .closeSimulator ]

/-- The notebook as written (`do_training = False`). -/
def notebook : List Stmt := notebookStmts do_training

/-! ### Trace semantics -/

/-- The calls a statement performs when executed. -/
def stmtCalls : Stmt → List Call
  | .call c => [c]
  | .ifElse cond thenBranch elseBranch => if cond then thenBranch else elseBranch
  | .forRange count body => (List.replicate count body).flatten
  | .tryExcept body _ => body

/-- The execution trace of a statement sequence. -/
def trace (ss : List Stmt) : List Call := (ss.map stmtCalls).flatten

/-- All calls appearing syntactically in a statement, both branches of an
if/else included. -/
def stmtAllCalls : Stmt → List Call
  | .call c => [c]
  | .ifElse _ thenBranch elseBranch => thenBranch ++ elseBranch
  | .forRange _ body => body
  | .tryExcept body handler => body ++ handler

/-- All calls appearing syntactically in a statement sequence. -/
def allCalls (ss : List Stmt) : List Call := (ss.map stmtAllCalls).flatten

/-! ### Call and statement predicates -/

/-- Is this call a `sim.fit` call? -/
def isFitCall : Call → Bool
  | .fit _ _ _ _ => true
  | _ => false

/-- Is this call a `sim.evaluate` call? -/
def isEvalCall : Call → Bool
  | .evaluate _ _ _ => true
  | _ => false

/-- Is this call a `sim.compile` call? -/
def isCompileCall : Call → Bool
  | .compile _ => true
  | _ => false

/-- Is this call a `sim.save_params` call? -/
def isSaveCall : Call → Bool
  | .save_params _ => true
  | _ => false

/-- Is this call a `sim.load_params` call? -/
def isLoadCall : Call → Bool
  | .load_params _ => true
  | _ => false

/-- Is this call a `urlretrieve` download? -/
def isUrlCall : Call → Bool
  | .urlretrieve _ _ => true
  | _ => false

/-- Does this call retrieve data from a network endpoint (the Keras MNIST
loader or a `urlretrieve` download)? -/
def isNetworkFetch : Call → Bool
  | .loadMnistDataset => true
  | .urlretrieve _ _ => true
  | _ => false

/-- Is this call the standard dataset loader
(`tf.keras.datasets.mnist.load_data`)? -/
def isDatasetLoaderCall : Call → Bool
  | .loadMnistDataset => true
  | _ => false

/-- Does this call read an environment variable? -/
def isEnvRead : Call → Bool
  | .readEnvVar _ => true
  | _ => false

/-- Does this call read a command-line argument? -/
def isCliRead : Call → Bool
  | .readCliArg _ => true
  | _ => false

/-- Is this statement a plain call? -/
def isCallStmt : Stmt → Bool
  | .call _ => true
  | _ => false

/-- Is this statement an if/else branch? -/
def isIfStmt : Stmt → Bool
  | .ifElse _ _ _ => true
  | _ => false

/-- Is this statement a fixed-count loop? -/
def isForStmt : Stmt → Bool
  | .forRange _ _ => true
  | _ => false

/-- Is this statement a try/except block? -/
def isTryStmt : Stmt → Bool
  | .tryExcept _ _ => true
  | _ => false

/-- Does the statement sequence contain a try/except block? -/
def hasTry (ss : List Stmt) : Bool := ss.any isTryStmt

/-! ### Exception-propagation semantics

`raise` says which calls fail and with what exception.  A failing call
aborts a straight-line call sequence; only a `tryExcept` statement could
intercept the failure, and the notebook has none. -/

/-- Run a straight-line call sequence: stop at the first failing call with
its exception, otherwise return the calls performed. -/
def runCalls (raise : Call → Option String) : List Call → Except String (List Call)
  | [] => .ok []
  | c :: cs =>
    match raise c with
    | some e => .error e
    | none =>
      match runCalls raise cs with
      | .ok done => .ok (c :: done)
      | .error e => .error e

/-- Run one statement.  A `tryExcept` catches a failure of its body and
runs the handler; every other statement propagates failures. -/
def runStmt (raise : Call → Option String) : Stmt → Except String (List Call)
  | .call c => runCalls raise [c]
  | .ifElse cond thenBranch elseBranch =>
    runCalls raise (if cond then thenBranch else elseBranch)
  | .forRange count body => runCalls raise (List.replicate count body).flatten
  | .tryExcept body handler =>
    match runCalls raise body with
    | .ok done => .ok done
    | .error _ => runCalls raise handler

/-- Run a statement sequence, propagating the first failure. -/
def runProg (raise : Call → Option String) : List Stmt → Except String (List Call)
  | [] => .ok []
  | s :: ss =>
    match runStmt raise s with
    | .error e => .error e
    | .ok done =>
      match runProg raise ss with
      | .ok done2 => .ok (done ++ done2)
      | .error e => .error e

/-- Appending call sequences: the run of `xs ++ ys` fails where the run of
`xs` fails, and otherwise continues with `ys`. -/
theorem runCalls_append (raise : Call → Option String) (xs ys : List Call) :
    runCalls raise (xs ++ ys) =
      match runCalls raise xs with
      | .error e => .error e
      | .ok done =>
        match runCalls raise ys with
        | .ok done2 => .ok (done ++ done2)
        | .error e => .error e := by
  induction xs with
  | nil =>
    cases hys : runCalls raise ys <;> simp [runCalls, hys]
  | cons c cs ih =>
    cases hr : raise c with
    | some e => simp [runCalls, hr]
    | none =>
      simp only [List.cons_append, runCalls, hr, List.append_eq]
      rw [ih]
      cases runCalls raise cs with
      | error e => rfl
      | ok done => cases runCalls raise ys <;> rfl

/-- A statement that is not a try/except runs exactly as its call
sequence. -/
theorem runStmt_eq_runCalls (raise : Call → Option String) (s : Stmt)
    (h : isTryStmt s = false) : runStmt raise s = runCalls raise (stmtCalls s) := by
  cases s with
  | call c => rfl
  | ifElse cond thenBranch elseBranch => rfl
  | forRange count body => rfl
  | tryExcept body handler => simp [isTryStmt] at h

/-- With no try/except anywhere, a statement sequence runs exactly as its
trace: the first failing call's exception surfaces unchanged. -/
theorem runProg_eq_runCalls (raise : Call → Option String) (ss : List Stmt)
    (h : hasTry ss = false) : runProg raise ss = runCalls raise (trace ss) := by
  induction ss with
  | nil => rfl
  | cons s rest ih =>
    simp only [hasTry, List.any_cons, Bool.or_eq_false_iff] at h
    simp only [runProg, trace, List.map_cons, List.flatten_cons]
    rw [runCalls_append, runStmt_eq_runCalls raise s h.1, ih h.2]
    cases runCalls raise (stmtCalls s) <;> rfl

/-- When a run fails, the exception is one raised by a call of the
sequence. -/
theorem runCalls_error_mem (raise : Call → Option String) (cs : List Call)
    (e : String) (h : runCalls raise cs = .error e) :
    ∃ c, c ∈ cs ∧ raise c = some e := by
  induction cs with
  | nil => simp [runCalls] at h
  | cons c rest ih =>
    cases hr : raise c with
    | some e0 =>
      simp only [runCalls, hr] at h
      injection h with he
      subst he
      exact ⟨c, List.mem_cons_self c rest, hr⟩
    | none =>
      simp only [runCalls, hr] at h
      cases hrest : runCalls raise rest with
      | ok done => rw [hrest] at h; cases h
      | error e0 =>
        rw [hrest] at h
        injection h with he
        subst he
        obtain ⟨c0, hc0, hraise⟩ := ih hrest
        exact ⟨c0, List.mem_cons_of_mem c hc0, hraise⟩

/-- When no call of the sequence fails, the run succeeds and performs the
whole sequence. -/
theorem runCalls_ok (raise : Call → Option String) (cs : List Call)
    (h : ∀ c ∈ cs, raise c = none) : runCalls raise cs = .ok cs := by
  induction cs with
  | nil => rfl
  | cons c rest ih =>
    simp only [runCalls, h c (List.mem_cons_self c rest),
      ih fun c0 hc0 => h c0 (List.mem_cons_of_mem c hc0)]

/-! ### Time-axis data preparation (`[:, None, :]` and `np.tile`)

Arrays carry their shape and an indexing function; the dataset contents
are unknown, so the original arrays are parameters. -/

/-- A 1-D array (a label vector). -/
structure Arr1 (α : Type) where
  batch : Nat
  data : Nat → α

/-- A 2-D array (batch of flattened images). -/
structure Arr2 (α : Type) where
  batch : Nat
  feature : Nat
  data : Nat → Nat → α

/-- A 3-D array (batch × time × feature). -/
structure Arr3 (α : Type) where
  batch : Nat
  timeSteps : Nat
  feature : Nat
  data : Nat → Nat → Nat → α

/-- `x[:, None, :]`: insert a time axis of extent 1 into a 2-D array. -/
def expandTimeAxis {α : Type} (a : Arr2 α) : Arr3 α :=
  { batch := a.batch
    timeSteps := 1
    feature := a.feature
    data := fun i _ p => a.data i p }

/-- `x[:, None, None]`: insert time and feature axes of extent 1 into a
label vector. -/
def expandLabelAxes {α : Type} (a : Arr1 α) : Arr3 α :=
  { batch := a.batch
    timeSteps := 1
    feature := 1
    data := fun i _ _ => a.data i }

/-- `np.tile(a, reps)` on a 3-D array: each axis extent is multiplied by
its repetition count and an index reads the source at the index modulo the
source extent. -/
def npTile {α : Type} (a : Arr3 α) (reps : Nat × Nat × Nat) : Arr3 α :=
  { batch := a.batch * reps.1
    timeSteps := a.timeSteps * reps.2.1
    feature := a.feature * reps.2.2
    data := fun i t p => a.data (i % a.batch) (t % a.timeSteps) (p % a.feature) }

/-- `train_images[:, None, :]`. -/
def prepTrainImages {α : Type} (images : Arr2 α) : Arr3 α := expandTimeAxis images

/-- `train_labels[:, None, None]`. -/
def prepTrainLabels {α : Type} (labels : Arr1 α) : Arr3 α := expandLabelAxes labels

/-- `np.tile(test_images[:, None, :], (1, n_steps, 1))`. -/
def prepTestImages {α : Type} (images : Arr2 α) : Arr3 α :=
  npTile (expandTimeAxis images) (1, n_steps, 1)

/-- `np.tile(test_labels[:, None, None], (1, n_steps, 1))`. -/
def prepTestLabels {α : Type} (labels : Arr1 α) : Arr3 α :=
  npTile (expandLabelAxes labels) (1, n_steps, 1)

/-! ### The custom metric

```
def classification_accuracy(y_true, y_pred):
    return tf.metrics.sparse_categorical_accuracy(y_true[:, -1], y_pred[:, -1])
```

Batched time series are lists of rows (one row per example, one entry per
timestep); `[:, -1]` takes each row's last entry and fails when a row is
empty, as indexing an extent-0 axis would. -/

/-- `x[:, -1]`: the last entry of every row, or `none` when a row has no
timestep. -/
def lastColumn {α : Type} : List (List α) → Option (List α)
  | [] => some []
  | row :: rest =>
    match row.getLast?, lastColumn rest with
    | some v, some vs => some (v :: vs)
    | _, _ => none

/-- `tf.metrics.sparse_categorical_accuracy` compares each integer label
with the argmax of the corresponding prediction vector: first index of the
maximum, ties to the smaller index. -/
def argmax (xs : List Rat) : Nat :=
  (xs.enum.foldl (fun best iv => if best.2 < iv.2 then iv else best) (0, xs.headD 0)).1

/-- Per-example accuracy: 1 when the argmax of the prediction equals the
label, else 0. -/
def sparse_categorical_accuracy (y_true : List Nat) (y_pred : List (List Rat)) :
    List Rat :=
  List.zipWith (fun t p => if argmax p = t then (1 : Rat) else 0) y_true y_pred

/-- The notebook's `classification_accuracy`: the metric applied to the
final-timestep slices `y_true[:, -1]` and `y_pred[:, -1]`. -/
def classification_accuracy (y_true : List (List Nat))
    (y_pred : List (List (List Rat))) : Option (List Rat) :=
  match lastColumn y_true, lastColumn y_pred with
  | some yt, some yp => some (sparse_categorical_accuracy yt yp)
  | _, _ => none

/-- `lastColumn` only depends on each row's last entry. -/
theorem lastColumn_congr {α : Type} (xs ys : List (List α))
    (h : xs.map List.getLast? = ys.map List.getLast?) :
    lastColumn xs = lastColumn ys := by
  induction xs generalizing ys with
  | nil =>
    cases ys with
    | nil => rfl
    | cons y ys0 => simp at h
  | cons x xs0 ih =>
    cases ys with
    | nil => simp at h
    | cons y ys0 =>
      simp only [List.map_cons, List.cons.injEq] at h
      simp only [lastColumn, h.1, ih ys0 h.2]

/-! ### Remaining predicates used by the claims -/

/-- Is this call a `sim.predict` call? -/
def isPredictCall : Call → Bool
  | .predict _ => true
  | _ => false

/-- Does the layer list consist of convolution layers each immediately
followed by a neuron nonlinearity, ending in a dense 10-unit readout? -/
def convNeuronThenDense10 : List LayerSpec → Bool
  | [LayerSpec.dense u] => u == 10
  | LayerSpec.conv2d _ _ _ _ :: LayerSpec.lifNeuron _ :: rest =>
    convNeuronThenDense10 rest
  | _ => false

/-! ### The claims -/

/-- C5: the network topology declared by the notebook is a sequence of
layer-construction calls — convolution layers each followed by a neuron
nonlinearity, then a dense 10-unit readout — passed to the network
builder, and the simulator is constructed from exactly that network
together with the batch-size configuration value (200). -/
theorem C5_topology_and_simulator :
    convNeuronThenDense10 net.layers = true ∧
    Call.buildNetwork net ∈ trace notebook ∧
    Call.makeSimulator net minibatch_size ∈ trace notebook ∧
    sim.network = net ∧
    sim.minibatchSize = minibatch_size ∧
    minibatch_size = 200 := by
  decide

/-- C6: every fit/evaluate call of the notebook goes through the
simulator's compile/fit/evaluate/predict entry points with an
(inputs, probe-targets) pair; the fit uses RMSprop, sparse categorical
cross-entropy on the unfiltered probe `out_p` and 10 epochs, and both
evaluations use the classification-accuracy loss on the filtered probe
`out_p_filt`. -/
theorem C6_entry_points_and_configuration :
    (allCalls notebook).filter isCompileCall =
      [ Call.compile evalCompileCfg
      , Call.compile
          { optimizer := some (.rmsprop (mkRat 1 1000))
            lossProbe := "out_p"
            loss := .sparseCategoricalCrossentropy true }
      , Call.compile evalCompileCfg ] ∧
    (allCalls notebook).filter isFitCall =
      [Call.fit "train_images" "out_p" "train_labels" 10] ∧
    (allCalls notebook).filter isEvalCall =
      [ Call.evaluate "test_images" "out_p_filt" "test_labels"
      , Call.evaluate "test_images" "out_p_filt" "test_labels" ] ∧
    (allCalls notebook).filter isPredictCall =
      [Call.predict "test_images[:minibatch_size]"] ∧
    evalCompileCfg.loss = .classificationAccuracy ∧
    evalCompileCfg.lossProbe = "out_p_filt" := by
  decide

/-- C10: with `do_training = False` the training branch is unreachable —
no execution calls `sim.fit` or `sim.save_params`; every execution
downloads the pretrained weights and calls `sim.load_params`; and under
either value of the flag exactly one of the save call and the load call
runs, never both. -/
theorem C10_training_branch_unreachable :
    do_training = false ∧
    (trace (notebookStmts false)).any isFitCall = false ∧
    (trace (notebookStmts false)).any isSaveCall = false ∧
    Call.urlretrieve pretrainedUrl "mnist_params.npz" ∈ trace (notebookStmts false) ∧
    Call.load_params "./mnist_params" ∈ trace (notebookStmts false) ∧
    (trace (notebookStmts false)).any isLoadCall = true ∧
    (trace (notebookStmts true)).any isSaveCall = true ∧
    (trace (notebookStmts true)).any isLoadCall = false := by
  decide

/-- C2 counterexample: the notebook is not free of control flow — it
contains the `do_training` if/else branch, and a `sim.evaluate` call runs
before the train-or-load step (the pre-training accuracy check), so the
phases do not run in the claimed fetch/declare/construct/train/evaluate
order. -/
theorem C2_counterexample :
    (notebookStmts do_training).any isIfStmt = true ∧
    ((trace notebook).takeWhile
        (fun c => !(isLoadCall c || isSaveCall c || isUrlCall c))).any isEvalCall
      = true := by
  decide

/-- C2 (amended): the notebook executes as a script in the order: fetch
the dataset, declare the network, construct the simulator, prepare the
time-axis data, run a pre-training evaluation, train-or-load (an if/else
on `do_training`), evaluate, predict and plot, close; its only control
flow is that one branch and fixed-count plotting loops — there is no
state machine and no try/except. -/
theorem C2_amended_linear_script :
    trace notebook =
      [ .loadMnistDataset
      , .plotOutput, .plotOutput, .plotOutput
      , .buildNetwork net
      , .makeSimulator net minibatch_size
      , .addTrainTimeAxis
      , .tileTestData n_steps
      , .compile evalCompileCfg
      , .evaluate "test_images" "out_p_filt" "test_labels"
      , .urlretrieve pretrainedUrl "mnist_params.npz"
      , .load_params "./mnist_params"
      , .compile evalCompileCfg
      , .evaluate "test_images" "out_p_filt" "test_labels"
      , .predict "test_images[:minibatch_size]"
      , .plotOutput, .plotOutput, .plotOutput, .plotOutput, .plotOutput
      , .closeSimulator ] ∧
    (notebookStmts do_training).filter (fun s => !isCallStmt s) =
      [ .forRange 3 [.plotOutput]
      , .ifElse do_training trainBranch loadBranch
      , .forRange 5 [.plotOutput] ] ∧
    hasTry (notebookStmts do_training) = false := by
  decide

/-- C3 counterexample: in the notebook as written (`do_training = False`)
the save call never runs while the load call does, so the file the load
call reads is not one produced by the save call in that execution. -/
theorem C3_counterexample :
    (trace notebook).any isSaveCall = false ∧
    (trace notebook).any isLoadCall = true := by
  decide

/-- C3 (amended): the persisted state is the parameter file
`./mnist_params`, written by `sim.save_params` in the training branch and
read by `sim.load_params` in the other branch at the same path; but in any
single execution exactly one of the two runs, and with
`do_training = False` the file the load call reads is the pretrained
`mnist_params.npz` downloaded by `urlretrieve` just before it, not output
of the save call. -/
theorem C3_amended_persistence :
    (allCalls notebook).filter isSaveCall = [Call.save_params "./mnist_params"] ∧
    (allCalls notebook).filter isLoadCall = [Call.load_params "./mnist_params"] ∧
    (trace (notebookStmts false)).any isSaveCall = false ∧
    (trace (notebookStmts false)).any isLoadCall = true ∧
    (trace (notebookStmts true)).any isSaveCall = true ∧
    (trace (notebookStmts true)).any isLoadCall = false ∧
    (trace notebook).filter isUrlCall =
      [Call.urlretrieve pretrainedUrl "mnist_params.npz"] ∧
    (trace notebook).findIdx isUrlCall < (trace notebook).findIdx isLoadCall := by
  decide

/-- C4 counterexample: the notebook performs a network retrieval that is
not the dataset loader — the `urlretrieve` download of the pretrained
weights from a Google Drive URL. -/
theorem C4_counterexample :
    (trace notebook).any (fun c => isNetworkFetch c && !isDatasetLoaderCall c)
      = true := by
  decide

/-- C4 (amended): the notebook's network retrievals are exactly the MNIST
dataset loader and the `urlretrieve` download of the pretrained weights
from the Google Drive URL; it reads no environment variables and no
command-line arguments. -/
theorem C4_amended_external_inputs :
    (allCalls notebook).filter isNetworkFetch =
      [Call.loadMnistDataset, Call.urlretrieve pretrainedUrl "mnist_params.npz"] ∧
    (allCalls notebook).filter isEnvRead = [] ∧
    (allCalls notebook).filter isCliRead = [] := by
  decide

/-- C7: the notebook contains no try/except, so it runs exactly as its
straight-line trace: any exception a call raises surfaces unchanged and
uncaught, the surfaced exception is always one raised by a call of the
trace, and when no call fails the whole trace executes. -/
theorem C7_no_error_handling :
    hasTry (notebookStmts false) = false ∧
    hasTry (notebookStmts true) = false ∧
    (∀ raise : Call → Option String,
      runProg raise notebook = runCalls raise (trace notebook)) ∧
    (∀ (raise : Call → Option String) (e : String),
      runProg raise notebook = .error e →
        ∃ c, c ∈ trace notebook ∧ raise c = some e) ∧
    (∀ raise : Call → Option String,
      (∀ c ∈ trace notebook, raise c = none) →
        runProg raise notebook = .ok (trace notebook)) := by
  refine ⟨by decide, by decide, ?_, ?_, ?_⟩
  · intro raise
    exact runProg_eq_runCalls raise notebook (by decide)
  · intro raise e h
    rw [runProg_eq_runCalls raise notebook (by decide)] at h
    exact runCalls_error_mem raise (trace notebook) e h
  · intro raise h
    rw [runProg_eq_runCalls raise notebook (by decide)]
    exact runCalls_ok raise (trace notebook) h

/-- C8: `classification_accuracy` depends only on the final timestep of
its inputs — any two pairs of batched time series that agree on the
last-timestep slice (index -1 along the time axis) get the same value,
whatever the earlier timesteps hold. -/
theorem C8_accuracy_depends_only_on_last_timestep
    (y_true y_true2 : List (List Nat)) (y_pred y_pred2 : List (List (List Rat)))
    (ht : y_true.map List.getLast? = y_true2.map List.getLast?)
    (hp : y_pred.map List.getLast? = y_pred2.map List.getLast?) :
    classification_accuracy y_true y_pred =
      classification_accuracy y_true2 y_pred2 := by
  unfold classification_accuracy
  rw [lastColumn_congr y_true y_true2 ht, lastColumn_congr y_pred y_pred2 hp]

/-- C8 at a concrete input: two label/prediction pairs that differ at the
first timestep but share the last one get the same accuracy. -/
theorem C8_last_timestep_witness :
    ([[3, 5]] : List (List Nat)).map List.getLast?
      = ([[9, 5]] : List (List Nat)).map List.getLast? ∧
    ([[[0, 1], [1, 0]]] : List (List (List Rat))).map List.getLast?
      = ([[[7, 7], [1, 0]]] : List (List (List Rat))).map List.getLast? ∧
    classification_accuracy [[3, 5]] [[[0, 1], [1, 0]]]
      = classification_accuracy [[9, 5]] [[[7, 7], [1, 0]]] :=
  ⟨by decide, by decide,
    C8_accuracy_depends_only_on_last_timestep [[3, 5]] [[9, 5]]
      [[[0, 1], [1, 0]]] [[[7, 7], [1, 0]]] (by decide) (by decide)⟩

/-- C9: after the time-axis preparation the training data has exactly one
timestep per example, and the tiled test data is constant over its 30
timesteps: at every in-range index, any two timesteps below `n_steps`
read the same flattened original image and the same label. -/
theorem C9_time_axis_preparation (trainI testI : Arr2 Rat)
    (trainL testL : Arr1 Nat) (i s t p : Nat)
    (hi : i < testI.batch) (hp : p < testI.feature) (hiL : i < testL.batch)
    (hs : s < n_steps) (ht : t < n_steps) :
    (prepTrainImages trainI).timeSteps = 1 ∧
    (prepTrainLabels trainL).timeSteps = 1 ∧
    (prepTestImages testI).timeSteps = n_steps ∧
    (prepTestLabels testL).timeSteps = n_steps ∧
    (prepTestImages testI).data i s p = testI.data i p ∧
    (prepTestImages testI).data i t p = testI.data i p ∧
    (prepTestLabels testL).data i s 0 = testL.data i ∧
    (prepTestLabels testL).data i t 0 = testL.data i := by
  refine ⟨rfl, rfl, by simp [prepTestImages, npTile, expandTimeAxis],
    by simp [prepTestLabels, npTile, expandLabelAxes], ?_, ?_, ?_, ?_⟩ <;>
    simp [prepTestImages, prepTestLabels, npTile, expandTimeAxis,
      expandLabelAxes, Nat.mod_one, Nat.mod_eq_of_lt hi, Nat.mod_eq_of_lt hp,
      Nat.mod_eq_of_lt hiL]

/-- Small concrete test array for the C9 witness. -/
def witImages : Arr2 Rat :=
  { batch := 2, feature := 3, data := fun i p => (i : Rat) + p }

/-- Small concrete label vector for the C9 witness. -/
def witLabels : Arr1 Nat := { batch := 2, data := fun i => i }

/-- C9 at a concrete input: a 2-example, 3-pixel dataset, read at example
0, pixel 1, timesteps 2 and 5. -/
theorem C9_time_axis_witness :
    (0 : Nat) < witImages.batch ∧ (1 : Nat) < witImages.feature ∧
    (0 : Nat) < witLabels.batch ∧ (2 : Nat) < n_steps ∧ (5 : Nat) < n_steps ∧
    ((prepTrainImages witImages).timeSteps = 1 ∧
     (prepTrainLabels witLabels).timeSteps = 1 ∧
     (prepTestImages witImages).timeSteps = n_steps ∧
     (prepTestLabels witLabels).timeSteps = n_steps ∧
     (prepTestImages witImages).data 0 2 1 = witImages.data 0 1 ∧
     (prepTestImages witImages).data 0 5 1 = witImages.data 0 1 ∧
     (prepTestLabels witLabels).data 0 2 0 = witLabels.data 0 ∧
     (prepTestLabels witLabels).data 0 5 0 = witLabels.data 0) :=
  ⟨by decide, by decide, by decide, by decide, by decide,
    C9_time_axis_preparation witImages witImages witLabels witLabels 0 2 5 1
      (by decide) (by decide) (by decide) (by decide) (by decide)⟩
